import Mathlib

/-!
Verification development for the `stac_model.input` schema module.

The module is a declarative validation layer: record types with
construct-time validation and JSON-document serialization.  We embed the
data model shallowly: each pydantic model becomes a Lean structure, its
construct-time validation becomes an explicit checked constructor
returning `Except String _`, and the document layer becomes explicit
`serialize` / `parse` functions over a JSON value type.

The collaborators from the base module (`Number`, `DataType`,
`ProcessingExpression`, `MLMBaseModel` string rules, `OmitIfNone`
serialization policy) are not part of the given sources; they are
modelled from the specification where marked.
-/

/-- Numeric payload of a JSON document value.  Modelled from the spec:
`Number` is the base-module alias for int-or-float.  The schema module
performs no arithmetic on numbers, it only stores and compares them, so a
float is carried opaquely by its representation. -/
inductive Number where
  | int (n : Int)
  | float (repr : Nat)
deriving DecidableEq

/-- JSON-compatible document values: the input and output of the schema
layer.  Objects are ordered key-value lists, as produced by serialization. -/
inductive Json where
  | null
  | bool (b : Bool)
  | num (n : Number)
  | str (s : String)
  | arr (elems : List Json)
  | obj (fields : List (String × Json))

/-- Test whether a JSON value is the null value. -/
def Json.isNull : Json → Bool
  | .null => true
  | _ => false

/-- Lookup of a key in a JSON object field list (first occurrence wins). -/
def lookupKey : List (String × Json) → String → Option Json
  | [], _ => none
  | (k, v) :: fs, k' => if k' = k then some v else lookupKey fs k'

/-- Modelled from the spec: `DataType` is the external enumeration of
admissible tensor element types consumed from the base module.  The exact
member list does not affect any validation rule of this module. -/
inductive DataType where
  | uint8 | uint16 | uint32 | uint64
  | int8 | int16 | int32 | int64
  | float16 | float32 | float64
  | cint16 | cint32 | cfloat32 | cfloat64
  | other
deriving DecidableEq

/-- String form of a `DataType` member, used by serialization. -/
def DataType.toStr : DataType → String
  | .uint8 => "uint8"
  | .uint16 => "uint16"
  | .uint32 => "uint32"
  | .uint64 => "uint64"
  | .int8 => "int8"
  | .int16 => "int16"
  | .int32 => "int32"
  | .int64 => "int64"
  | .float16 => "float16"
  | .float32 => "float32"
  | .float64 => "float64"
  | .cint16 => "cint16"
  | .cint32 => "cint32"
  | .cfloat32 => "cfloat32"
  | .cfloat64 => "cfloat64"
  | .other => "other"

/-- Parse of a `DataType` member from its string form. -/
def DataType.ofStr (s : String) : Option DataType :=
  if s = "uint8" then some .uint8
  else if s = "uint16" then some .uint16
  else if s = "uint32" then some .uint32
  else if s = "uint64" then some .uint64
  else if s = "int8" then some .int8
  else if s = "int16" then some .int16
  else if s = "int32" then some .int32
  else if s = "int64" then some .int64
  else if s = "float16" then some .float16
  else if s = "float32" then some .float32
  else if s = "float64" then some .float64
  else if s = "cint16" then some .cint16
  else if s = "cint32" then some .cint32
  else if s = "cfloat32" then some .cfloat32
  else if s = "cfloat64" then some .cfloat64
  else if s = "other" then some .other
  else none

/-- Modelled from the spec: `ProcessingExpression` is the external generic
schema from the base module with a required `format` field and a required
`expression` field (the expression value is unconstrained). -/
structure ProcessingExpression where
  format : String
  expression : Json

/-- Monadic map over a list for `Except`, failing on the first error. -/
def mapME (f : α → Except String β) : List α → Except String (List β)
  | [] => .ok []
  | a :: as =>
    match f a with
    | .error e => .error e
    | .ok b =>
      match mapME f as with
      | .error e => .error e
      | .ok bs => .ok (b :: bs)

/-- Coercion of a JSON value to a string, as pydantic does for `str` fields. -/
def asString : Json → Except String String
  | .str s => .ok s
  | _ => .error "Input should be a valid string"

/-- Coercion of a JSON value to a number, as pydantic does for `Number` fields. -/
def asNumber : Json → Except String Number
  | .num n => .ok n
  | _ => .error "Input should be a valid number"

/-- Lookup of a required field of an object; a missing key is a validation error. -/
def requiredField (fs : List (String × Json)) (k : String) : Except String Json :=
  match lookupKey fs k with
  | some v => .ok v
  | none => .error ("Field required: " ++ k)

/-- The `InputStructure` record: tensor shape, dimension names, element type. -/
structure InputStructure where
  shape : List Number
  dim_order : List String
  data_type : DataType

/-- Checked constructor for `InputStructure`.  Field rules run first
(`min_length=1` on `shape` and on `dim_order`), then the
`validate_dimensions` model validator compares the two lengths. -/
def InputStructure.mk' (shape : List Number) (dim_order : List String)
    (data_type : DataType) : Except String InputStructure :=
  if shape.length < 1 then
    .error "shape: List should have at least 1 item"
  else if dim_order.length < 1 then
    .error "dim_order: List should have at least 1 item"
  else if shape.length ≠ dim_order.length then
    .error "Dimension order and shape must be of equal length for corresponding indices."
  else
    .ok ⟨shape, dim_order, data_type⟩

/-- Validity of an `InputStructure` value: exactly the conditions under
which the checked constructor succeeds. -/
def ValidInputStructure (s : InputStructure) : Prop :=
  1 ≤ s.shape.length ∧ 1 ≤ s.dim_order.length ∧ s.shape.length = s.dim_order.length

instance (s : InputStructure) : Decidable (ValidInputStructure s) := by
  unfold ValidInputStructure; infer_instance

/-- Serialization of an `InputStructure` to a JSON document: all three
fields are always emitted, in declaration order. -/
def serializeInputStructure (s : InputStructure) : Json :=
  .obj [("shape", .arr (s.shape.map Json.num)),
        ("dim_order", .arr (s.dim_order.map Json.str)),
        ("data_type", .str s.data_type.toStr)]

/-- Parse of a JSON value as a list of numbers (the `shape` field). -/
def parseNumberList (j : Json) : Except String (List Number) :=
  match j with
  | .arr xs => mapME asNumber xs
  | _ => .error "Input should be a valid list"

/-- Parse of a JSON value as a list of strings (the `dim_order` field). -/
def parseStringList (j : Json) : Except String (List String) :=
  match j with
  | .arr xs => mapME asString xs
  | _ => .error "Input should be a valid list"

/-- Parse of a JSON value as a `DataType` member. -/
def parseDataType (j : Json) : Except String DataType :=
  match j with
  | .str s =>
    match DataType.ofStr s with
    | some d => .ok d
    | none => .error "Input should be a valid DataType"
  | _ => .error "Input should be a valid DataType"

/-- Parse of a JSON document as an `InputStructure`: coerce each field,
then run the checked constructor (field rules, then the model validator). -/
def parseInputStructure (j : Json) : Except String InputStructure :=
  match j with
  | .obj fs => do
    let shape ← parseNumberList (← requiredField fs "shape")
    let dim_order ← parseStringList (← requiredField fs "dim_order")
    let data_type ← parseDataType (← requiredField fs "data_type")
    InputStructure.mk' shape dim_order data_type
  | _ => .error "Input should be a valid InputStructure"

/-- The `ScalingObject` tagged union from the module, one constructor per
pydantic variant class (`ScalingClipMin`, `ScalingClipMax`, `ScalingClip`,
`ScalingMinMax`, `ScalingZScore`, `ScalingOffset`, `ScalingScale`,
`ScalingProcessingExpression`). -/
inductive ScalingObject where
  | clipMin (minimum : Number)
  | clipMax (maximum : Number)
  | clip (minimum maximum : Number)
  | minMax (minimum maximum : Number)
  | zScore (mean stddev : Number)
  | offset (value : Number)
  | scale (value : Number)
  | processing (pe : ProcessingExpression)

/-- Discriminator tags of the `ScalingObject` union, in union declaration
order. -/
def scalingTypeTags : List String :=
  ["min-max", "z-score", "clip", "clip-min", "clip-max", "offset", "scale", "processing"]

/-- Serialization of one `ScalingObject` variant: the `type` discriminator
plus the variant fields.  For the `processing` variant the inherited
`ProcessingExpression` fields come first, as pydantic emits parent-class
fields before subclass fields. -/
def serializeScalingObject : ScalingObject → Json
  | .clipMin m => .obj [("type", .str "clip-min"), ("minimum", .num m)]
  | .clipMax m => .obj [("type", .str "clip-max"), ("maximum", .num m)]
  | .clip mn mx => .obj [("type", .str "clip"), ("minimum", .num mn), ("maximum", .num mx)]
  | .minMax mn mx => .obj [("type", .str "min-max"), ("minimum", .num mn), ("maximum", .num mx)]
  | .zScore me sd => .obj [("type", .str "z-score"), ("mean", .num me), ("stddev", .num sd)]
  | .offset v => .obj [("type", .str "offset"), ("value", .num v)]
  | .scale v => .obj [("type", .str "scale"), ("value", .num v)]
  | .processing pe =>
    .obj [("format", .str pe.format), ("expression", pe.expression), ("type", .str "processing")]

/-- Lookup of a required numeric field of a variant object. -/
def requiredNumber (fs : List (String × Json)) (k : String) : Except String Number :=
  match requiredField fs k with
  | .error e => .error e
  | .ok v => asNumber v

/-- Dispatch on a present `type` discriminator: the tag selects the variant,
whose required fields are then read; an unrecognized tag fails. -/
def parseScalingTagged (fs : List (String × Json)) (t : String) :
    Except String ScalingObject :=
  if t = "min-max" then
    match requiredNumber fs "minimum", requiredNumber fs "maximum" with
    | .ok mn, .ok mx => .ok (.minMax mn mx)
    | .error e, _ => .error e
    | _, .error e => .error e
  else if t = "z-score" then
    match requiredNumber fs "mean", requiredNumber fs "stddev" with
    | .ok me, .ok sd => .ok (.zScore me sd)
    | .error e, _ => .error e
    | _, .error e => .error e
  else if t = "clip" then
    match requiredNumber fs "minimum", requiredNumber fs "maximum" with
    | .ok mn, .ok mx => .ok (.clip mn mx)
    | .error e, _ => .error e
    | _, .error e => .error e
  else if t = "clip-min" then
    match requiredNumber fs "minimum" with
    | .ok mn => .ok (.clipMin mn)
    | .error e => .error e
  else if t = "clip-max" then
    match requiredNumber fs "maximum" with
    | .ok mx => .ok (.clipMax mx)
    | .error e => .error e
  else if t = "offset" then
    match requiredNumber fs "value" with
    | .ok v => .ok (.offset v)
    | .error e => .error e
  else if t = "scale" then
    match requiredNumber fs "value" with
    | .ok v => .ok (.scale v)
    | .error e => .error e
  else if t = "processing" then
    match requiredField fs "format", requiredField fs "expression" with
    | .ok fj, .ok ej =>
      match asString fj with
      | .ok f => .ok (.processing ⟨f, ej⟩)
      | .error e => .error e
    | .error e, _ => .error e
    | _, .error e => .error e
  else
    .error ("Input tag does not match any of the union variants: " ++ t)

/-- Resolution of an object carrying no `type` key: every variant declares a
default for its literal tag, so pydantic tries the union members in
declaration order and keeps the first that validates. -/
def parseScalingUntagged (fs : List (String × Json)) : Except String ScalingObject :=
  match parseScalingTagged fs "min-max" with
  | .ok v => .ok v
  | .error _ =>
  match parseScalingTagged fs "z-score" with
  | .ok v => .ok v
  | .error _ =>
  match parseScalingTagged fs "clip" with
  | .ok v => .ok v
  | .error _ =>
  match parseScalingTagged fs "clip-min" with
  | .ok v => .ok v
  | .error _ =>
  match parseScalingTagged fs "clip-max" with
  | .ok v => .ok v
  | .error _ =>
  match parseScalingTagged fs "offset" with
  | .ok v => .ok v
  | .error _ =>
  match parseScalingTagged fs "scale" with
  | .ok v => .ok v
  | .error _ =>
  parseScalingTagged fs "processing"

/-- Parse of one (nullable) `ScalingObject` value: null means "no scaling",
an object is resolved through the union, anything else fails. -/
def parseScalingObject (j : Json) : Except String (Option ScalingObject) :=
  match j with
  | .null => .ok none
  | .obj fs =>
    match lookupKey fs "type" with
    | some (.str t) =>
      match parseScalingTagged fs t with
      | .ok v => .ok (some v)
      | .error e => .error e
    | some _ => .error "Input tag should be a valid string"
    | none =>
      match parseScalingUntagged fs with
      | .ok v => .ok (some v)
      | .error e => .error e
  | _ => .error "Input should be a valid ScalingObject"

/-- The `ResizeType` closed enumeration from the module, one constructor per
literal string of the type alias. -/
inductive ResizeType where
  | crop
  | pad
  | interpolationNearest
  | interpolationLinear
  | interpolationCubic
  | interpolationArea
  | interpolationLanczos4
  | interpolationMax
  | wrapFillOutliers
  | wrapInverseMap
deriving DecidableEq

/-- The ten literal strings admitted by the `ResizeType` alias, in
declaration order. -/
def resizeStrings : List String :=
  ["crop", "pad", "interpolation-nearest", "interpolation-linear", "interpolation-cubic",
   "interpolation-area", "interpolation-lanczos4", "interpolation-max",
   "wrap-fill-outliers", "wrap-inverse-map"]

/-- String form of a `ResizeType` member. -/
def ResizeType.toStr : ResizeType → String
  | .crop => "crop"
  | .pad => "pad"
  | .interpolationNearest => "interpolation-nearest"
  | .interpolationLinear => "interpolation-linear"
  | .interpolationCubic => "interpolation-cubic"
  | .interpolationArea => "interpolation-area"
  | .interpolationLanczos4 => "interpolation-lanczos4"
  | .interpolationMax => "interpolation-max"
  | .wrapFillOutliers => "wrap-fill-outliers"
  | .wrapInverseMap => "wrap-inverse-map"

/-- Parse of a `ResizeType` member from a string; unrecognized strings are
rejected. -/
def ResizeType.ofStr (s : String) : Option ResizeType :=
  if s = "crop" then some .crop
  else if s = "pad" then some .pad
  else if s = "interpolation-nearest" then some .interpolationNearest
  else if s = "interpolation-linear" then some .interpolationLinear
  else if s = "interpolation-cubic" then some .interpolationCubic
  else if s = "interpolation-area" then some .interpolationArea
  else if s = "interpolation-lanczos4" then some .interpolationLanczos4
  else if s = "interpolation-max" then some .interpolationMax
  else if s = "wrap-fill-outliers" then some .wrapFillOutliers
  else if s = "wrap-inverse-map" then some .wrapInverseMap
  else none

/-- Parse of the nullable `ResizeType` field value: null is admitted (the
alias is `Optional`), a recognized literal string is admitted, anything
else fails. -/
def parseResizeField (j : Json) : Except String (Option ResizeType) :=
  match j with
  | .null => .ok none
  | .str s =>
    match ResizeType.ofStr s with
    | some r => .ok (some r)
    | none => .error ("Input should be one of the resize literals, got: " ++ s)
  | _ => .error "Input should be a valid ResizeType"

/-- The `ModelBand` record: a band name with an optional mutually-dependent
`format` / `expression` pair. -/
structure ModelBand where
  name : String
  format : Option String
  expression : Option Json

/-- Test whether an optional expression value is an explicit JSON null.
The Python field `Optional[Any]` represents a JSON null and an absent
value both as `None`, so a well-formed embedded value never holds
`some Json.null`. -/
def exprSetNull : Option Json → Bool
  | some .null => true
  | _ => false

/-- Checked constructor for `ModelBand`.  The non-empty rule on `name` is
modelled from the spec: the base model general string rules require `name`
to be non-empty (the base module is not among the given sources).  Field
rules run first, then the `validate_expression` model validator enforces
that `format` and `expression` are both set or both unset, with the exact
boolean condition of the source. -/
def ModelBand.mk' (name : String) (format : Option String) (expression : Option Json) :
    Except String ModelBand :=
  if name = "" then
    .error "name: String should have at least 1 character"
  else if (format.isSome || expression.isSome) && (format.isNone || expression.isNone) then
    .error "Model band format and expression are mutually dependant."
  else
    .ok ⟨name, format, expression⟩

/-- Validity of a `ModelBand` value: the conditions under which the checked
constructor succeeds, plus representability of the expression value. -/
def ValidModelBand (b : ModelBand) : Prop :=
  b.name ≠ "" ∧ b.format.isSome = b.expression.isSome ∧ exprSetNull b.expression = false

instance (b : ModelBand) : Decidable (ValidModelBand b) := by
  unfold ValidModelBand; infer_instance

/-- Serialization of a `ModelBand`: `name` always, `format` and
`expression` under the omit-if-none policy (modelled from the spec: the
`OmitIfNone` annotation suppresses the key entirely when the value is
absent). -/
def serializeModelBand (b : ModelBand) : Json :=
  .obj ([("name", .str b.name)]
    ++ (match b.format with
        | none => []
        | some f => [("format", .str f)])
    ++ (match b.expression with
        | none => []
        | some e => [("expression", e)]))

/-- Read of an optional string field: a missing key or a null value is an
absent value. -/
def parseOptionalString (fs : List (String × Json)) (k : String) :
    Except String (Option String) :=
  match lookupKey fs k with
  | none => .ok none
  | some .null => .ok none
  | some (.str s) => .ok (some s)
  | some _ => .error "Input should be a valid string"

/-- Read of an optional `Any` field: a missing key or a null value is an
absent value, any other value is kept as-is. -/
def parseOptionalAny (fs : List (String × Json)) (k : String) : Option Json :=
  match lookupKey fs k with
  | none => none
  | some .null => none
  | some v => some v

/-- Parse of a JSON document as a `ModelBand`: coerce the fields, then run
the checked constructor. -/
def parseModelBand (j : Json) : Except String ModelBand :=
  match j with
  | .obj fs => do
    let name ← asString (← requiredField fs "name")
    let format ← parseOptionalString fs "format"
    ModelBand.mk' name format (parseOptionalAny fs "expression")
  | _ => .error "Input should be a valid ModelBand"

/-- One element of the `bands` sequence: either a plain band-name string or
a full `ModelBand` record. -/
inductive BandRef where
  | named (s : String)
  | band (b : ModelBand)

/-- Serialization of a `bands` element: a plain string or a band object. -/
def serializeBandRef : BandRef → Json
  | .named s => .str s
  | .band b => serializeModelBand b

/-- Parse of a `bands` element: a JSON string is a named-band reference, a
JSON object is a `ModelBand`, anything else fails. -/
def parseBandRef (j : Json) : Except String BandRef :=
  match j with
  | .str s => .ok (.named s)
  | .obj fs =>
    match parseModelBand (.obj fs) with
    | .ok b => .ok (.band b)
    | .error e => .error e
  | _ => .error "Input should be a valid string or ModelBand"

/-- Validity of a `bands` element: a plain string is always valid, a band
record must satisfy the `ModelBand` conditions. -/
def ValidBandRef : BandRef → Prop
  | .named _ => True
  | .band b => ValidModelBand b

instance (r : BandRef) : Decidable (ValidBandRef r) := by
  cases r <;> (unfold ValidBandRef; infer_instance)

/-- Serialization of a `ProcessingExpression`: both fields are required and
always emitted. -/
def serializeProcessingExpression (p : ProcessingExpression) : Json :=
  .obj [("format", .str p.format), ("expression", p.expression)]

/-- Parse of a JSON document as a `ProcessingExpression`: `format` must be
a string, `expression` is required but unconstrained. -/
def parseProcessingExpression (j : Json) : Except String ProcessingExpression :=
  match j with
  | .obj fs =>
    match requiredField fs "format", requiredField fs "expression" with
    | .ok fj, .ok ej =>
      match asString fj with
      | .ok f => .ok ⟨f, ej⟩
      | .error e => .error e
    | .error e, _ => .error e
    | _, .error e => .error e
  | _ => .error "Input should be a valid ProcessingExpression"

/-- The `ModelInput` record aggregating the whole schema. -/
structure ModelInput where
  name : String
  bands : List BandRef
  input : InputStructure
  scaling : Option (List (Option ScalingObject))
  resize_type : Option ResizeType
  pre_processing_function : Option ProcessingExpression

/-- Serialization of one entry of the `scaling` sequence: an absent entry
is an explicit null (the union is nullable per entry). -/
def serializeScalingEntry : Option ScalingObject → Json
  | none => .null
  | some sc => serializeScalingObject sc

/-- Serialization of a `ModelInput` document.  The keys `name`, `bands` and
`input` are always present; `scaling` and `resize_type` follow the
omit-if-none policy (modelled from the spec: the `OmitIfNone` annotation
suppresses the key when the value is absent); `pre_processing_function`
carries no such annotation and is emitted as null when absent. -/
def serializeModelInput (m : ModelInput) : Json :=
  .obj ([("name", .str m.name),
         ("bands", .arr (m.bands.map serializeBandRef)),
         ("input", serializeInputStructure m.input)]
    ++ (match m.scaling with
        | none => []
        | some l => [("scaling", .arr (l.map serializeScalingEntry))])
    ++ (match m.resize_type with
        | none => []
        | some r => [("resize_type", .str r.toStr)])
    ++ [("pre_processing_function",
         match m.pre_processing_function with
         | none => .null
         | some p => serializeProcessingExpression p)])

/-- Parse of a JSON document as a `ModelInput`.  Every field is coerced
independently; the module declares no model validator of its own, so there
is no cross-field check relating the lengths of `bands`, `input.shape` and
`scaling`. -/
def parseModelInput (j : Json) : Except String ModelInput :=
  match j with
  | .obj fs => do
    let name ← asString (← requiredField fs "name")
    let bands ←
      match requiredField fs "bands" with
      | .ok (.arr xs) => mapME parseBandRef xs
      | .ok _ => .error "Input should be a valid list"
      | .error e => .error e
    let input ←
      match requiredField fs "input" with
      | .ok ij => parseInputStructure ij
      | .error e => .error e
    let scaling ←
      match lookupKey fs "scaling" with
      | none => .ok none
      | some .null => .ok none
      | some (.arr xs) =>
        match mapME parseScalingObject xs with
        | .ok l => .ok (some l)
        | .error e => .error e
      | some _ => .error "Input should be a valid list"
    let resize_type ←
      match lookupKey fs "resize_type" with
      | none => .ok none
      | some rj => parseResizeField rj
    let pre_processing_function ←
      match lookupKey fs "pre_processing_function" with
      | none => .ok none
      | some .null => .ok none
      | some pj =>
        match parseProcessingExpression pj with
        | .ok p => .ok (some p)
        | .error e => .error e
    .ok ⟨name, bands, input, scaling, resize_type, pre_processing_function⟩
  | _ => .error "Input should be a valid ModelInput"

/-- Validity of a `ModelInput` value: every `bands` element is valid and
the nested `InputStructure` is valid.  No condition relates the lengths of
`bands`, `input.shape` and `scaling`, and none restricts duplicates. -/
def ValidModelInput (m : ModelInput) : Prop :=
  (∀ r ∈ m.bands, ValidBandRef r) ∧ ValidInputStructure m.input

instance (m : ModelInput) : Decidable (ValidModelInput m) := by
  unfold ValidModelInput; infer_instance

/-- Success test for a validation result. -/
def isOk : Except String α → Bool
  | .ok _ => true
  | .error _ => false

/-- Top-level keys of a serialized document, in emission order. -/
def topKeys : Json → List String
  | .obj fs => fs.map Prod.fst
  | _ => []

/-- Value of a top-level key of a serialized document. -/
def getKey (j : Json) (k : String) : Option Json :=
  match j with
  | .obj fs => lookupKey fs k
  | _ => none

/-- The mixed `bands` sequence of the example in the source: a plain name,
a minimal band record, and a derived band with both `format` and
`expression` set. -/
def exampleBands : List BandRef :=
  [.named "B01",
   .band ⟨"B02", none, none⟩,
   .band ⟨"NDVI", some "rio-calc", some (.str "(B08 - B04) / (B08 + B04)")⟩]

/-- A concrete fully-populated `ModelInput` used as evaluation witness. -/
def exampleModelInput : ModelInput :=
  ⟨"model-input", exampleBands,
   ⟨[.int 1, .int 3, .int 64, .int 64], ["batch", "channel", "height", "width"], .float32⟩,
   some [none, some (.minMax (.int 0) (.int 255)), none],
   some .crop,
   some ⟨"gdal-calc", .str "A * 2"⟩⟩

theorem DataType.ofStr_toStr (d : DataType) : DataType.ofStr d.toStr = some d := by
  cases d <;> rfl

theorem mapME_map_ok (f : α → Except String β) (g : β → α) (l : List β)
    (h : ∀ b ∈ l, f (g b) = .ok b) : mapME f (l.map g) = .ok l := by
  induction l with
  | nil => rfl
  | cons b bs ih =>
    simp only [List.map_cons, mapME]
    rw [h b (List.mem_cons_self b bs), ih fun x hx => h x (List.mem_cons_of_mem b hx)]

theorem InputStructure.mk_ok_iff (shape : List Number) (dim_order : List String)
    (data_type : DataType) :
    InputStructure.mk' shape dim_order data_type = .ok ⟨shape, dim_order, data_type⟩ ↔
      ValidInputStructure ⟨shape, dim_order, data_type⟩ := by
  unfold InputStructure.mk' ValidInputStructure
  constructor
  · intro h
    by_cases h1 : shape.length < 1
    · rw [if_pos h1] at h; exact absurd h (by simp)
    by_cases h2 : dim_order.length < 1
    · rw [if_neg h1, if_pos h2] at h; exact absurd h (by simp)
    by_cases h3 : shape.length ≠ dim_order.length
    · rw [if_neg h1, if_neg h2, if_pos h3] at h; exact absurd h (by simp)
    exact ⟨Nat.le_of_not_lt h1, Nat.le_of_not_lt h2, not_not.mp h3⟩
  · intro ⟨h1, h2, h3⟩
    rw [if_neg (Nat.not_lt.mpr h1), if_neg (Nat.not_lt.mpr h2), if_neg (not_not.mpr h3)]

theorem InputStructure.mk_isOk_characterization (shape : List Number)
    (dim_order : List String) (data_type : DataType) :
    (∃ v, InputStructure.mk' shape dim_order data_type = .ok v) ↔
      ValidInputStructure ⟨shape, dim_order, data_type⟩ := by
  constructor
  · intro ⟨v, hv⟩
    unfold InputStructure.mk' at hv
    by_cases h1 : shape.length < 1
    · rw [if_pos h1] at hv; exact absurd hv (by simp)
    by_cases h2 : dim_order.length < 1
    · rw [if_neg h1, if_pos h2] at hv; exact absurd hv (by simp)
    by_cases h3 : shape.length ≠ dim_order.length
    · rw [if_neg h1, if_neg h2, if_pos h3] at hv; exact absurd hv (by simp)
    exact ⟨Nat.le_of_not_lt h1, Nat.le_of_not_lt h2, not_not.mp h3⟩
  · intro h
    exact ⟨_, (InputStructure.mk_ok_iff shape dim_order data_type).mpr h⟩

theorem parseNumberList_map (ns : List Number) :
    parseNumberList (.arr (ns.map Json.num)) = .ok ns :=
  mapME_map_ok asNumber Json.num ns fun _ _ => rfl

theorem parseStringList_map (ss : List String) :
    parseStringList (.arr (ss.map Json.str)) = .ok ss :=
  mapME_map_ok asString Json.str ss fun _ _ => rfl

theorem parseDataType_toStr (d : DataType) : parseDataType (.str d.toStr) = .ok d := by
  simp [parseDataType, DataType.ofStr_toStr]

theorem parse_serializeInputStructure (s : InputStructure) (h : ValidInputStructure s) :
    parseInputStructure (serializeInputStructure s) = .ok s := by
  obtain ⟨shape, dim_order, data_type⟩ := s
  simp [parseInputStructure, serializeInputStructure, requiredField, lookupKey,
    parseNumberList_map, parseStringList_map, parseDataType_toStr, bind, Except.bind]
  exact (InputStructure.mk_ok_iff shape dim_order data_type).mpr h

theorem parse_serializeScalingObject (sc : ScalingObject) :
    parseScalingObject (serializeScalingObject sc) = .ok (some sc) := by
  cases sc <;> rfl

theorem ResizeType.ofStr_toStr_some (r : ResizeType) : ResizeType.ofStr r.toStr = some r := by
  cases r <;> rfl

theorem ResizeType.ofStr_isSome_iff (s : String) :
    (ResizeType.ofStr s).isSome = true ↔ s ∈ resizeStrings := by
  unfold ResizeType.ofStr
  split_ifs with h1 h2 h3 h4 h5 h6 h7 h8 h9 h10 <;> simp_all [resizeStrings]

theorem parse_serializeModelBand (b : ModelBand) (h : ValidModelBand b) :
    parseModelBand (serializeModelBand b) = .ok b := by
  obtain ⟨name, format, expr⟩ := b
  obtain ⟨h1, h2, h3⟩ := h
  match format, expr with
  | none, none =>
    simp [parseModelBand, serializeModelBand, requiredField, lookupKey, asString,
      parseOptionalString, parseOptionalAny, ModelBand.mk', h1, bind, Except.bind]
  | none, some e => simp at h2
  | some f, none => simp at h2
  | some f, some e =>
    cases e <;>
      simp_all [parseModelBand, serializeModelBand, requiredField, lookupKey, asString,
        parseOptionalString, parseOptionalAny, ModelBand.mk', exprSetNull, bind, Except.bind]

theorem parse_serializeBandRef (r : BandRef) (h : ValidBandRef r) :
    parseBandRef (serializeBandRef r) = .ok r := by
  cases r with
  | named s => rfl
  | band b =>
    have hb := parse_serializeModelBand b h
    simp only [serializeBandRef, serializeModelBand] at hb ⊢
    simp only [parseBandRef, hb]

theorem parse_serializeProcessingExpression (p : ProcessingExpression) :
    parseProcessingExpression (serializeProcessingExpression p) = .ok p := rfl

theorem parse_serializeScalingEntry (e : Option ScalingObject) :
    parseScalingObject (serializeScalingEntry e) = .ok e := by
  cases e with
  | none => rfl
  | some sc => exact parse_serializeScalingObject sc

theorem parse_serializeModelInput (m : ModelInput) (h : ValidModelInput m) :
    parseModelInput (serializeModelInput m) = .ok m := by
  obtain ⟨name, bands, input, scaling, resize_type, ppf⟩ := m
  obtain ⟨hb, hi⟩ := h
  have hbands : mapME parseBandRef (bands.map serializeBandRef) = .ok bands :=
    mapME_map_ok _ _ _ fun r hr => parse_serializeBandRef r (hb r hr)
  have hinput := parse_serializeInputStructure input hi
  have hscal : ∀ l : List (Option ScalingObject),
      mapME parseScalingObject (l.map serializeScalingEntry) = .ok l :=
    fun l => mapME_map_ok _ _ l fun e _ => parse_serializeScalingEntry e
  cases scaling <;> cases resize_type <;> cases ppf <;>
    simp [parseModelInput, serializeModelInput, requiredField, lookupKey, asString,
      hbands, hinput, hscal, parseResizeField, ResizeType.ofStr_toStr_some,
      serializeProcessingExpression, parseProcessingExpression, bind, Except.bind]

theorem InputStructure.mk_isOk_iff (shape : List Number) (dim_order : List String)
    (dt : DataType) :
    isOk (InputStructure.mk' shape dim_order dt) = true ↔
      ValidInputStructure ⟨shape, dim_order, dt⟩ := by
  unfold InputStructure.mk' ValidInputStructure
  split_ifs with h1 h2 h3 <;> simp [isOk] <;> omega

theorem InputStructure.mk_ok_inv (shape : List Number) (dim_order : List String)
    (dt : DataType) (v : InputStructure)
    (h : InputStructure.mk' shape dim_order dt = .ok v) :
    v = ⟨shape, dim_order, dt⟩ ∧ v.shape.length = v.dim_order.length := by
  unfold InputStructure.mk' at h
  split_ifs at h with h1 h2 h3
  rw [Except.ok.injEq] at h
  subst h
  exact ⟨rfl, not_not.mp h3⟩

theorem parseScalingTagged_not_mem (fs : List (String × Json)) (t : String)
    (h : t ∉ scalingTypeTags) :
    parseScalingTagged fs t =
      .error ("Input tag does not match any of the union variants: " ++ t) := by
  simp [scalingTypeTags] at h
  obtain ⟨h1, h2, h3, h4, h5, h6, h7, h8⟩ := h
  unfold parseScalingTagged
  rw [if_neg h1, if_neg h2, if_neg h3, if_neg h4, if_neg h5, if_neg h6, if_neg h7, if_neg h8]

/-- C1 (amended): construction of an InputStructure fails whenever the two
lengths differ, and succeeds exactly when the lengths agree and both lists are
non-empty (the `min_length=1` field rules); consequently every successfully
constructed InputStructure satisfies len(shape) = len(dim_order). -/
theorem C1_inputStructure_length_validation (shape : List Number)
    (dim_order : List String) (dt : DataType) :
    (shape.length ≠ dim_order.length → isOk (InputStructure.mk' shape dim_order dt) = false) ∧
    (isOk (InputStructure.mk' shape dim_order dt) = true ↔
      shape.length = dim_order.length ∧ 1 ≤ shape.length ∧ 1 ≤ dim_order.length) ∧
    (∀ v, InputStructure.mk' shape dim_order dt = .ok v →
      v.shape.length = v.dim_order.length) := by
  have hiff := InputStructure.mk_isOk_iff shape dim_order dt
  unfold ValidInputStructure at hiff
  refine ⟨fun hne => ?_, by rw [hiff]; tauto, fun v hv => (InputStructure.mk_ok_inv _ _ _ v hv).2⟩
  cases hok : isOk (InputStructure.mk' shape dim_order dt) with
  | false => rfl
  | true => exact absurd (hiff.mp hok).2.2 hne

/-- C1 witness: a well-formed four-dimensional input structure constructs
successfully. -/
theorem C1_witness :
    isOk (InputStructure.mk' [Number.int 1, Number.int 3, Number.int 64, Number.int 64]
      ["batch", "channel", "height", "width"] DataType.uint8) = true :=
  (C1_inputStructure_length_validation _ _ _).2.1.mpr (by decide)

/-- C1 counterexample: with shape = [] and dim_order = [] the two lengths are
equal, yet construction fails (each field carries min_length=1), so failure is
not equivalent to a length mismatch. -/
theorem C1_counterexample :
    ([] : List Number).length = ([] : List String).length ∧
      isOk (InputStructure.mk' [] [] DataType.uint8) = false :=
  ⟨rfl, rfl⟩

/-- C2 (amended): the type discriminator of a ScalingObject must match one of
the eight literal tags; the tag determines the required fields, so min-max with
only a minimum fails while min-max with minimum and maximum succeeds, each of
the eight tags is selectable, and every unrecognized tag fails. -/
theorem C2_scaling_tagged_union (fs : List (String × Json)) (t : String) :
    (t ∉ scalingTypeTags →
      isOk (parseScalingObject (.obj (("type", .str t) :: fs))) = false) ∧
    (∀ u ∈ scalingTypeTags, ∃ gs v, parseScalingTagged gs u = .ok v) ∧
    isOk (parseScalingObject (.obj [("type", .str "min-max"),
      ("minimum", .num (.int 0))])) = false ∧
    parseScalingObject (.obj [("type", .str "min-max"), ("minimum", .num (.int 0)),
      ("maximum", .num (.int 1))]) = .ok (some (.minMax (.int 0) (.int 1))) := by
  refine ⟨fun h => ?_, fun u hu => ?_, rfl, rfl⟩
  · have hr := parseScalingTagged_not_mem (("type", .str t) :: fs) t h
    simp [parseScalingObject, lookupKey, hr, isOk]
  · fin_cases hu
    · exact ⟨[("minimum", .num (.int 0)), ("maximum", .num (.int 1))], _, rfl⟩
    · exact ⟨[("mean", .num (.int 0)), ("stddev", .num (.int 1))], _, rfl⟩
    · exact ⟨[("minimum", .num (.int 0)), ("maximum", .num (.int 1))], _, rfl⟩
    · exact ⟨[("minimum", .num (.int 0))], _, rfl⟩
    · exact ⟨[("maximum", .num (.int 1))], _, rfl⟩
    · exact ⟨[("value", .num (.int 2))], _, rfl⟩
    · exact ⟨[("value", .num (.int 2))], _, rfl⟩
    · exact ⟨[("format", .str "gdal-calc"), ("expression", .str "A * 2")], _, rfl⟩

/-- C2 witness: an unrecognized discriminator tag is rejected. -/
theorem C2_witness :
    isOk (parseScalingObject (.obj [("type", .str "bogus"),
      ("minimum", .num (.int 0)), ("maximum", .num (.int 1))])) = false :=
  (C2_scaling_tagged_union [("minimum", .num (.int 0)), ("maximum", .num (.int 1))]
    "bogus").1 (by decide)

/-- C2 counterexample: the ScalingObject union as implemented has exactly eight
discriminator tags, not nine. -/
theorem C2_counterexample : scalingTypeTags.length = 8 ∧ ¬ scalingTypeTags.length = 9 := by
  decide

/-- C3: for a band with a valid (non-empty) name, construction fails exactly
when one of format and expression is set while the other is unset, and succeeds
when both are set or both are absent. -/
theorem C3_format_expression_mutual (name : String) (h : name ≠ "") :
    (∀ f, isOk (ModelBand.mk' name (some f) none) = false) ∧
    (∀ e, isOk (ModelBand.mk' name none (some e)) = false) ∧
    (∀ f e, ModelBand.mk' name (some f) (some e) = .ok ⟨name, some f, some e⟩) ∧
    ModelBand.mk' name none none = .ok ⟨name, none, none⟩ := by
  unfold ModelBand.mk'
  refine ⟨fun f => ?_, fun e => ?_, fun f e => ?_, ?_⟩ <;> rw [if_neg h] <;> rfl

/-- C3 witness: only format set fails; format with expression succeeds; neither
set succeeds. -/
theorem C3_witness :
    isOk ( ModelBand.mk' "B04" (some "rio-calc") none) = false ∧
    ModelBand.mk' "NDVI" (some "rio-calc") (some (.str "(B08 - B04) / (B08 + B04)")) =
      .ok ⟨"NDVI", some "rio-calc", some (.str "(B08 - B04) / (B08 + B04)")⟩ ∧
    ModelBand.mk' "B02" none none = .ok ⟨"B02", none, none⟩ :=
  ⟨(C3_format_expression_mutual "B04" (by decide)).1 "rio-calc",
   (C3_format_expression_mutual "NDVI" (by decide)).2.2.1 "rio-calc" _,
   (C3_format_expression_mutual "B02" (by decide)).2.2.2⟩

/-- C4: round-trip law: for every valid instance of the schema types, parsing
the serialized document returns the instance unchanged — in particular a
ModelInput whose bands mix plain strings and band records keeps the order and
the identity of every bands element. -/
theorem C4_roundtrip_law :
    (∀ m : ModelInput, ValidModelInput m →
      parseModelInput (serializeModelInput m) = .ok m) ∧
    (∀ b : ModelBand, ValidModelBand b →
      parseModelBand (serializeModelBand b) = .ok b) ∧
    (∀ s : InputStructure, ValidInputStructure s →
      parseInputStructure (serializeInputStructure s) = .ok s) ∧
    (∀ sc : ScalingObject, parseScalingObject (serializeScalingObject sc) = .ok (some sc)) ∧
    (∀ p : ProcessingExpression,
      parseProcessingExpression (serializeProcessingExpression p) = .ok p) :=
  ⟨parse_serializeModelInput, parse_serializeModelBand, parse_serializeInputStructure,
   parse_serializeScalingObject, parse_serializeProcessingExpression⟩

/-- C4 witness: the fully-populated example instance with a mixed bands
sequence round-trips to itself. -/
theorem C4_witness :
    parseModelInput (serializeModelInput exampleModelInput) = .ok exampleModelInput :=
  C4_roundtrip_law.1 exampleModelInput (by decide)

/-- C5: when scaling, resize_type and pre_processing_function are all absent,
the serialized ModelInput carries exactly the keys name, bands, input and
pre_processing_function — the first two optional keys are omitted while the
absent pre_processing_function is still emitted with value null — and a band
with format and expression absent serializes with only its name key. -/
theorem C5_omit_if_none_asymmetry (m : ModelInput) (b : ModelBand)
    (hs : m.scaling = none) (hr : m.resize_type = none)
    (hp : m.pre_processing_function = none) (hf : b.format = none)
    (he : b.expression = none) :
    topKeys (serializeModelInput m) = ["name", "bands", "input", "pre_processing_function"] ∧
    getKey (serializeModelInput m) "pre_processing_function" = some .null ∧
    topKeys (serializeModelBand b) = ["name"] := by
  refine ⟨?_, ?_, ?_⟩ <;>
    simp [serializeModelInput, serializeModelBand, topKeys, getKey, lookupKey,
      hs, hr, hp, hf, he]

/-- C5 witness: a concrete instance with the three optional fields absent. -/
theorem C5_witness :
    topKeys (serializeModelInput ⟨"in0", [.named "B01"],
      ⟨[.int 1], ["batch"], .uint8⟩, none, none, none⟩) =
        ["name", "bands", "input", "pre_processing_function"] ∧
    getKey (serializeModelInput ⟨"in0", [.named "B01"],
      ⟨[.int 1], ["batch"], .uint8⟩, none, none, none⟩) "pre_processing_function" =
        some .null ∧
    topKeys (serializeModelBand ⟨"B02", none, none⟩) = ["name"] :=
  C5_omit_if_none_asymmetry _ _ rfl rfl rfl rfl rfl

/-- C6: no cross-field length validation: for every bands sequence (duplicates
included), every valid input structure and every scaling sequence, whatever
the relation between the three lengths, construction from the document
succeeds and returns the fields unchanged. -/
theorem C6_no_cross_length_validation (name : String) (bands : List BandRef)
    (input : InputStructure) (scaling : List (Option ScalingObject))
    (hb : ∀ r ∈ bands, ValidBandRef r) (hi : ValidInputStructure input) :
    parseModelInput (serializeModelInput ⟨name, bands, input, some scaling, none, none⟩) =
      .ok ⟨name, bands, input, some scaling, none, none⟩ :=
  parse_serializeModelInput _ ⟨hb, hi⟩

/-- C6 witness: two duplicate bands, a three-dimensional shape and five scaling
entries — three pairwise different lengths — are accepted. -/
theorem C6_witness :
    parseModelInput (serializeModelInput ⟨"in1", [.named "B01", .named "B01"],
      ⟨[.int 1, .int 3, .int 32], ["batch", "channel", "width"], .uint8⟩,
      some [none, none, none, none, none], none, none⟩) =
      .ok ⟨"in1", [.named "B01", .named "B01"],
        ⟨[.int 1, .int 3, .int 32], ["batch", "channel", "width"], .uint8⟩,
        some [none, none, none, none, none], none, none⟩ :=
  C6_no_cross_length_validation "in1" _ _ _ (by decide) (by decide)

/-- C7: ResizeType is a closed enumeration: the string crop parses, null is
accepted as the absent value, each of the ten literal strings is accepted, and
every other string is rejected. -/
theorem C7_resize_closed_enumeration :
    parseResizeField (.str "crop") = .ok (some .crop) ∧
    parseResizeField .null = .ok none ∧
    (∀ s, s ∈ resizeStrings → isOk (parseResizeField (.str s)) = true) ∧
    (∀ s, s ∉ resizeStrings → isOk (parseResizeField (.str s)) = false) := by
  refine ⟨rfl, rfl, fun s hs => ?_, fun s hs => ?_⟩
  · have h := (ResizeType.ofStr_isSome_iff s).mpr hs
    unfold parseResizeField
    cases hof : ResizeType.ofStr s with
    | none => rw [hof] at h; simp at h
    | some r => simp [hof, isOk]
  · have h : ¬ (ResizeType.ofStr s).isSome = true := fun hh =>
      hs ((ResizeType.ofStr_isSome_iff s).mp hh)
    unfold parseResizeField
    cases hof : ResizeType.ofStr s with
    | none => simp [hof, isOk]
    | some r => rw [hof] at h; simp at h

/-- C7 witness: crop is accepted and bogus-mode is rejected. -/
theorem C7_witness :
    isOk (parseResizeField (.str "crop")) = true ∧
    isOk (parseResizeField (.str "bogus-mode")) = false :=
  ⟨C7_resize_closed_enumeration.2.2.1 "crop" (by decide),
   C7_resize_closed_enumeration.2.2.2 "bogus-mode" (by decide)⟩

/-- C8: the band name is required and non-empty: a document without a name key
fails, direct construction with an empty name fails whatever the other fields,
and a document whose name is the empty string fails. -/
theorem C8_band_name_required_nonempty (fs : List (String × Json)) :
    (lookupKey fs "name" = none → isOk (parseModelBand (.obj fs)) = false) ∧
    (∀ f e, isOk ( ModelBand.mk' "" f e) = false) ∧
    isOk (parseModelBand (.obj [("name", .str "")])) = false := by
  refine ⟨fun h => ?_, fun f e => rfl, rfl⟩
  simp [parseModelBand, requiredField, h, bind, Except.bind, isOk]

/-- C8 witness: the empty document has no name key and is rejected. -/
theorem C8_witness : isOk (parseModelBand (.obj [])) = false :=
  (C8_band_name_required_nonempty []).1 rfl

/-- C9: an empty bands sequence is accepted: every otherwise-valid ModelInput
document with bands equal to the empty array constructs successfully. -/
theorem C9_empty_bands_accepted (name : String) (input : InputStructure)
    (scaling : Option (List (Option ScalingObject))) (rt : Option ResizeType)
    (ppf : Option ProcessingExpression) (hi : ValidInputStructure input) :
    parseModelInput (serializeModelInput ⟨name, [], input, scaling, rt, ppf⟩) =
      .ok ⟨name, [], input, scaling, rt, ppf⟩ :=
  parse_serializeModelInput _ ⟨fun r hr => absurd hr (List.not_mem_nil r), hi⟩

/-- C9 witness: a minimal instance with an empty bands array is accepted. -/
theorem C9_witness :
    parseModelInput (serializeModelInput ⟨"in2", [], ⟨[.int 1], ["batch"], .uint8⟩,
      none, none, none⟩) =
      .ok ⟨"in2", [], ⟨[.int 1], ["batch"], .uint8⟩, none, none, none⟩ :=
  C9_empty_bands_accepted "in2" _ none none none (by decide)

/-- C10 (amended): the expression field accepts a value of every non-null JSON
type (string, number, boolean, array or object): for every non-null value v,
a band document with a non-empty name, a format string and expression v
constructs successfully and keeps v unchanged; an explicit null expression is
indistinguishable from an absent one and is rejected when format is set. -/
theorem C10_expression_any_nonnull (name f : String) (v : Json)
    (hn : name ≠ "") (hv : v.isNull = false) :
    parseModelBand (.obj [("name", .str name), ("format", .str f), ("expression", v)]) =
      .ok ⟨name, some f, some v⟩ := by
  cases v <;> simp_all [parseModelBand, parseOptionalString, parseOptionalAny,
    requiredField, lookupKey, asString, ModelBand.mk', Json.isNull, bind, Except.bind]

/-- C10 witness: an array-valued expression is accepted unchanged. -/
theorem C10_witness :
    parseModelBand (.obj [("name", .str "NDVI"), ("format", .str "rio-calc"),
      ("expression", .arr [.num (.int 1), .str "B04"])]) =
      .ok ⟨"NDVI", some "rio-calc", some (.arr [.num (.int 1), .str "B04"])⟩ :=
  C10_expression_any_nonnull "NDVI" "rio-calc" _ (by decide) rfl

/-- C10 counterexample: with format set, a band document whose expression is the
JSON null value is rejected: the Optional-Any field maps an explicit null to
the absent value, so the mutual-dependency validator fails. -/
theorem C10_counterexample :
    isOk (parseModelBand (.obj [("name", .str "NDVI"), ("format", .str "rio-calc"),
      ("expression", .null)])) = false := rfl
